import Mathlib

/-!
Shallow embedding of `src/related_objects_fetcher.py`
(class `RelatedObjectsCollector` plus its helper `PaginatorObject`).

The Python module walks `instance._meta.related_objects`, classifies each
reverse relationship's `on_delete` handler, short-circuits into a blocked
state for PROTECT (always) and for DO_NOTHING with existing dependents,
and otherwise groups the fetched dependent records by related model and
policy, finally wrapping the groups in a Django `Paginator` with
`per_page = 10`.

The embedding is purely functional: the mutable fields set by `__init__`
become fields of the `Collector` structure, the `for` loop of
`_collect_objects` becomes a recursion (`collectLoop`) over the relation
list with the local `objects` dict threaded through, and exceptions
raised during construction (`TypeError`, `AttributeError` from reading
`_meta` on an object without it, `KeyError` from
`objects[related_model][on_delete]`) become `Except.error` outcomes.
Python dicts are modelled as insertion-ordered association lists, which
matches both dict iteration order and first-match key lookup.
-/

set_option autoImplicit false

namespace RelatedObjectsFetcher

/-- The Django `on_delete` handlers that the code compares against
(`CASCADE`, `SET_NULL`, `DO_NOTHING`, `PROTECT`); `other` stands for any
further handler (e.g. `SET_DEFAULT`), which `_get_on_delete_action` maps
to `"unknown"`. -/
inductive OnDelete where
  | cascade
  | setNull
  | doNothing
  | protect
  | other
  deriving DecidableEq, Repr, Inhabited

/-- A referencing record (a row of the related model). The code treats
these as opaque values; we give them a model name and an id so that
distinct records can be told apart. -/
structure Rec where
  model : String
  id : Nat
  deriving DecidableEq, Repr, Inhabited

/-- A related model (`relation.related_model`), identified by its
`_meta.model_name` as the reason templates read it. -/
structure RelatedModel where
  model_name : String
  deriving DecidableEq, Repr, Inhabited

/-- One entry of `instance._meta.related_objects`: exactly the fields the
code reads.  `query` holds the referencing records that exist for this
relationship — the list `list(getattr(instance, query_name).all())` would
return; the code only reads it when `has_accessor` is true
(`hasattr(self.instance, query_name)`). -/
structure Relation where
  on_delete : OnDelete
  accessor_name : String
  related_model : RelatedModel
  one_to_many : Bool
  one_to_one : Bool
  has_accessor : Bool
  query : List Rec
  deriving DecidableEq, Repr, Inhabited

/-- The record whose deletion is being previewed: its
`_meta.model_name` and `_meta.related_objects`. -/
structure Instance where
  model_name : String
  related_objects : List Relation
  deriving DecidableEq, Repr, Inhabited

/-- `RelatedObjectsCollector._get_on_delete_action`: maps the relation's
`on_delete` handler to the string labels used throughout the scan. -/
def _get_on_delete_action (relation : Relation) : String :=
  if relation.on_delete = OnDelete.cascade then "delete"
  else if relation.on_delete = OnDelete.setNull then "set_null"
  else if relation.on_delete = OnDelete.doNothing then "do_nothing"
  else if relation.on_delete = OnDelete.protect then "protect"
  else "unknown"

/-- The inner dict of `objects`: policy label → list of records. -/
abbrev PolicyGroup := List (String × List Rec)

/-- The `objects` dict: related model → policy label → records.
Insertion-ordered association list, mirroring a Python dict. -/
abbrev Grouped := List (RelatedModel × PolicyGroup)

/-- First-match association-list lookup (Python `d[k]` / `k in d`). -/
def lookupA {α β : Type} [DecidableEq α] : List (α × β) → α → Option β
  | [], _ => none
  | (k, v) :: rest, a => if k = a then some v else lookupA rest a

/-- Python `group[p].extend(q)` on the inner dict: extends the list at
key `p`; `none` models the `KeyError` raised when `p` is absent. -/
def extendAt (group : PolicyGroup) (p : String) (q : List Rec) : Option PolicyGroup :=
  match group with
  | [] => none
  | (p0, l) :: rest =>
    if p0 = p then some ((p0, l ++ q) :: rest)
    else
      match extendAt rest p q with
      | some rest2 => some ((p0, l) :: rest2)
      | none => none

/-- Replace the value stored at key `m` (in-place dict update). -/
def setAt (g : Grouped) (m : RelatedModel) (v : PolicyGroup) : Grouped :=
  match g with
  | [] => []
  | (k, w) :: rest => if k = m then (k, v) :: rest else (k, w) :: setAt rest m v

/-- Outcome of one iteration of the `for relation in self.related_objects`
loop body in `_collect_objects`. -/
inductive StepResult where
  | cont (objects : Grouped)
  | blockedProtect (related_model : RelatedModel)
  | blockedDoNothing (related_model : RelatedModel)
  | keyError
  deriving DecidableEq, Repr

/-- One iteration of the loop body of `_collect_objects`, lines 43–69 of
the source: the PROTECT early return, the cardinality / policy-set /
`hasattr` guards, the DO_NOTHING early return on a non-empty fetch, and
the grouping update (including the `KeyError` that
`objects[related_model][on_delete].extend(query)` raises when the model
is already present under a different policy label). -/
def collectStep (relation : Relation) (objects : Grouped) : StepResult :=
  let on_delete := _get_on_delete_action relation
  let related_model := relation.related_model
  if on_delete = "protect" then
    StepResult.blockedProtect related_model
  else if relation.one_to_many || relation.one_to_one then
    if on_delete = "delete" ∨ on_delete = "set_null" ∨ on_delete = "do_nothing" ∨
        on_delete = "protect" then
      if relation.has_accessor then
        let query := relation.query
        if query.length ≠ 0 ∧ on_delete = "do_nothing" then
          StepResult.blockedDoNothing related_model
        else if query ≠ [] then
          match lookupA objects related_model with
          | none => StepResult.cont (objects ++ [(related_model, [(on_delete, query)])])
          | some group =>
            match extendAt group on_delete query with
            | some group2 => StepResult.cont (setAt objects related_model group2)
            | none => StepResult.keyError
        else
          StepResult.cont objects
      else
        StepResult.cont objects
    else
      StepResult.cont objects
  else
    StepResult.cont objects

/-- Outcome of the whole scan in `_collect_objects`. -/
inductive ScanResult where
  | done (objects : Grouped)
  | blockedProtect (related_model : RelatedModel)
  | blockedDoNothing (related_model : RelatedModel)
  | keyError
  deriving DecidableEq, Repr

/-- The `for` loop of `_collect_objects`: run `collectStep` over the
relation list, threading the local `objects` dict; the `return`
statements become the non-`done` results. -/
def collectLoop : List Relation → Grouped → ScanResult
  | [], objects => ScanResult.done objects
  | relation :: rest, objects =>
    match collectStep relation objects with
    | StepResult.cont objects2 => collectLoop rest objects2
    | StepResult.blockedProtect m => ScanResult.blockedProtect m
    | StepResult.blockedDoNothing m => ScanResult.blockedDoNothing m
    | StepResult.keyError => ScanResult.keyError

/-- The reason string built by `_handle_protect` (the four f-string
pieces concatenated). -/
def _handle_protect_reason (instance_model_name : String) (related_model : RelatedModel) :
    String :=
  "The related model <strong>" ++ related_model.model_name ++ "</strong> " ++
    "has a relationship with the model <strong>" ++ instance_model_name ++ "</strong>, " ++
    "and this relationship is set to <strong>PROTECT</strong>, " ++
    "which prevents the deletion of this instance."

/-- The reason string built by `_handle_do_nothing`. -/
def _handle_do_nothing_reason (instance_model_name : String) (related_model : RelatedModel) :
    String :=
  "The instance of <strong>" ++ instance_model_name ++ "</strong> you are trying to delete " ++
    "has existing related instances in <strong>" ++ related_model.model_name ++ "</strong>. " ++
    "The relationship between these models is set to <strong>DO_NOTHING</strong>, " ++
    "which means no action is taken on the related objects when the parent instance is deleted. " ++
    "This will raise an error because the related instances still depend on the deleted object."

/-- `PaginatorObject`: wraps one `(model, policy-grouped records)` pair,
whose `data` attribute is the singleton dict on that pair. -/
structure PaginatorObject where
  data : RelatedModel × PolicyGroup
  deriving DecidableEq, Repr, Inhabited

/-- Django `Paginator(object_list, per_page)`: the slice-based behaviour
the code relies on (Django is a boundary collaborator, modelled from its
documented semantics with `orphans = 0` and `allow_empty_first_page`). -/
structure Paginator (α : Type) where
  object_list : List α
  per_page : Nat
  deriving DecidableEq, Repr

/-- `Paginator.count`. -/
def Paginator.count {α : Type} (p : Paginator α) : Nat :=
  p.object_list.length

/-- `Paginator.num_pages = ceil(max(1, count) / per_page)`. -/
def Paginator.num_pages {α : Type} (p : Paginator α) : Nat :=
  (Nat.max 1 p.count + p.per_page - 1) / p.per_page

/-- The object list of page `n` (1-based): `object_list[bottom:top]`. -/
def Paginator.page_items {α : Type} (p : Paginator α) (n : Nat) : List α :=
  (p.object_list.drop ((n - 1) * p.per_page)).take p.per_page

/-- `RelatedObjectsCollector.per_page`, the fixed class attribute. -/
def Collector.per_page : Nat := 10

/-- The attributes a successfully constructed `RelatedObjectsCollector`
exposes.  `paginator = none` models "the attribute was never assigned"
(`_create_paginator` runs only when the scan completes unblocked). -/
structure Collector where
  inst : Instance
  is_empty : Bool
  can_be_deleted : Bool
  reason : String
  data : Grouped
  paginator : Option (Paginator PaginatorObject)
  deriving DecidableEq, Repr, Inhabited

/-- The argument passed to `RelatedObjectsCollector(...)`:
a model instance; a non-instance that still exposes `_meta.model_name`
(such as the model class itself); or a non-instance without `_meta`
(such as an `int` or `None`). -/
inductive InitArg where
  | inst (i : Instance)
  | modelClass (model_name : String)
  | other
  deriving DecidableEq, Repr

/-- The exceptions construction can raise: the explicit `TypeError`, the
`AttributeError` from evaluating `instance._meta` on an object without
that attribute, and the `KeyError` from the grouping update. -/
inductive InitError where
  | typeError (msg : String)
  | attributeError
  | keyError
  deriving DecidableEq, Repr

/-- Whether an `InitError` is the `TypeError`. -/
def InitError.isTypeError : InitError → Bool
  | InitError.typeError _ => true
  | _ => false

/-- Python `str.title()` on one character stream: an alphabetic character
is uppercased when it starts an alphabetic run and lowercased otherwise. -/
def titleChars : List Char → Bool → List Char
  | [], _ => []
  | c :: cs, prevAlpha =>
    if c.isAlpha then
      (if prevAlpha then c.toLower else c.toUpper) :: titleChars cs true
    else
      c :: titleChars cs false

/-- Python `str.title()`. -/
def title (s : String) : String :=
  String.mk (titleChars s.data false)

/-- `RelatedObjectsCollector.__init__`.

`classRelatedObjects` is the value of the class attribute
`_related_objects` when the constructor runs (it is `{}` at module load).
`self._related_objects = objects` on line 72 creates an *instance*
attribute, so the class attribute is only ever read (by
`self.data = self._related_objects` on line 38 when the scan blocked
before line 72) and never reassigned; hence the second component of the
result — the class attribute after construction — is always the input
value.

The branches:
* a `Model` instance → run the scan; on `done` set `data`, build the
  paginator and recompute `is_empty`; on a blocked scan keep the
  `__init__` defaults (`is_empty = True`), flip `can_be_deleted`, store
  the handler's reason, and fall back to the class attribute for `data`;
  a `KeyError` escapes the constructor;
* a non-instance with `_meta` → the explicit `TypeError`, whose message
  interpolates `instance._meta.model_name.title()`;
* a non-instance without `_meta` → evaluating `instance._meta` inside the
  f-string raises `AttributeError` instead. -/
def collectorNew (classRelatedObjects : Grouped) (arg : InitArg) :
    Except InitError Collector × Grouped :=
  (match arg with
   | InitArg.inst i =>
     match collectLoop i.related_objects [] with
     | ScanResult.done objects =>
       Except.ok
         { inst := i
           is_empty := objects.isEmpty
           can_be_deleted := true
           reason := ""
           data := objects
           paginator :=
             some { object_list := objects.map (fun kv => { data := kv })
                    per_page := Collector.per_page } }
     | ScanResult.blockedProtect m =>
       Except.ok
         { inst := i
           is_empty := true
           can_be_deleted := false
           reason := _handle_protect_reason i.model_name m
           data := classRelatedObjects
           paginator := none }
     | ScanResult.blockedDoNothing m =>
       Except.ok
         { inst := i
           is_empty := true
           can_be_deleted := false
           reason := _handle_do_nothing_reason i.model_name m
           data := classRelatedObjects
           paginator := none }
     | ScanResult.keyError => Except.error InitError.keyError
   | InitArg.modelClass model_name =>
     Except.error
       (InitError.typeError
         ("(" ++ title model_name ++ ") must be an instance of the class, not the class itself"))
   | InitArg.other => Except.error InitError.attributeError,
   classRelatedObjects)

/-! ### Derived definitions used by the statements -/

/-- Whether a `StepResult` is one of the two blocking early returns. -/
def StepResult.isBlocked : StepResult → Bool
  | StepResult.blockedProtect _ => true
  | StepResult.blockedDoNothing _ => true
  | _ => false

/-- Whether a `ScanResult` is one of the two blocking early returns. -/
def ScanResult.isBlocked : ScanResult → Bool
  | ScanResult.blockedProtect _ => true
  | ScanResult.blockedDoNothing _ => true
  | _ => false

/-- The condition under which a single relationship makes the scan stop
in a blocked state: a PROTECT relationship (unconditionally), or a
one-to-many / one-to-one DO_NOTHING relationship whose accessor is
present on the instance and whose fetched list is non-empty. -/
def relBlocks (relation : Relation) : Bool :=
  decide (_get_on_delete_action relation = "protect") ||
    ((relation.one_to_many || relation.one_to_one) && relation.has_accessor &&
      decide (_get_on_delete_action relation = "do_nothing") && !relation.query.isEmpty)

/-- Every `[related model][policy]` entry present in a grouped result
holds a non-empty record list. -/
def InvGrouped (g : Grouped) : Prop :=
  ∀ m grp, lookupA g m = some grp → ∀ p l, lookupA grp p = some l → l ≠ []

/-! ### Concrete inputs used by counterexamples and witnesses -/

/-- A one-to-many DO_NOTHING relationship with an existing dependent but
no reverse accessor on the instance (in Django, a foreign key declared
with `related_name="+"` and `on_delete=DO_NOTHING`). -/
def c1Rel : Relation :=
  { on_delete := OnDelete.doNothing
    accessor_name := "comment_set"
    related_model := { model_name := "comment" }
    one_to_many := true
    one_to_one := false
    has_accessor := false
    query := [{ model := "comment", id := 1 }] }

/-- A record whose only relationship is `c1Rel`. -/
def c1Inst : Instance :=
  { model_name := "post", related_objects := [c1Rel] }

/-- A PROTECT relationship. -/
def c1wRel : Relation :=
  { on_delete := OnDelete.protect
    accessor_name := "comment_set"
    related_model := { model_name := "comment" }
    one_to_many := true
    one_to_one := false
    has_accessor := true
    query := [] }

/-- A record whose only relationship is the PROTECT one. -/
def c1wInst : Instance :=
  { model_name := "post", related_objects := [c1wRel] }

/-- The collector built from `c1wInst`. -/
def c1wCollector : Collector :=
  ((collectorNew [] (InitArg.inst c1wInst)).1.toOption).getD default

/-- A CASCADE relationship with one dependent comment. -/
def c2wRelA : Relation :=
  { on_delete := OnDelete.cascade
    accessor_name := "comment_set"
    related_model := { model_name := "comment" }
    one_to_many := true
    one_to_one := false
    has_accessor := true
    query := [{ model := "comment", id := 1 }] }

/-- A PROTECT relationship to the `like` model. -/
def c2wRelP : Relation :=
  { on_delete := OnDelete.protect
    accessor_name := "like_set"
    related_model := { model_name := "like" }
    one_to_many := true
    one_to_one := false
    has_accessor := true
    query := [{ model := "like", id := 7 }] }

/-- A CASCADE relationship placed after the PROTECT one in scan order. -/
def c2wRelC : Relation :=
  { on_delete := OnDelete.cascade
    accessor_name := "tag_set"
    related_model := { model_name := "tag" }
    one_to_many := true
    one_to_one := false
    has_accessor := true
    query := [{ model := "tag", id := 3 }] }

/-- A record with a CASCADE relationship, then a PROTECT one, then
another CASCADE one. -/
def c2wInst : Instance :=
  { model_name := "post", related_objects := [c2wRelA, c2wRelP, c2wRelC] }

/-- A one-to-many DO_NOTHING relationship with an accessor and one
existing dependent. -/
def c3wRel : Relation :=
  { on_delete := OnDelete.doNothing
    accessor_name := "comment_set"
    related_model := { model_name := "comment" }
    one_to_many := true
    one_to_one := false
    has_accessor := true
    query := [{ model := "comment", id := 1 }] }

/-- A record whose only relationship is `c3wRel`. -/
def c3wInst : Instance :=
  { model_name := "post", related_objects := [c3wRel] }

/-- A CASCADE relationship from `comment` with one dependent. -/
def c4RelA : Relation :=
  { on_delete := OnDelete.cascade
    accessor_name := "cascade_comments"
    related_model := { model_name := "comment" }
    one_to_many := true
    one_to_one := false
    has_accessor := true
    query := [{ model := "comment", id := 1 }] }

/-- A SET_NULL relationship from the same `comment` model with one
dependent (in Django: a second foreign key on `comment` pointing at the
same target with `on_delete=SET_NULL`). -/
def c4RelB : Relation :=
  { on_delete := OnDelete.setNull
    accessor_name := "setnull_comments"
    related_model := { model_name := "comment" }
    one_to_many := true
    one_to_one := false
    has_accessor := true
    query := [{ model := "comment", id := 2 }] }

/-- A record with the same referencing model under two relationships
with different policies, both with dependents. -/
def c4Inst : Instance :=
  { model_name := "post", related_objects := [c4RelA, c4RelB] }

/-- 25 CASCADE relationships to 25 distinct referencing models, each
with one dependent record. -/
def c5Rels : List Relation :=
  (List.range 25).map fun i =>
    { on_delete := OnDelete.cascade
      accessor_name := "rel" ++ toString i
      related_model := { model_name := "m" ++ toString i }
      one_to_many := true
      one_to_one := false
      has_accessor := true
      query := [{ model := "m" ++ toString i, id := i }] }

/-- A record with the 25 relationships of `c5Rels`. -/
def c5Inst : Instance :=
  { model_name := "post", related_objects := c5Rels }

/-- The collector built from `c5Inst`. -/
def c5Collector : Collector :=
  ((collectorNew [] (InitArg.inst c5Inst)).1.toOption).getD default

/-- The paginator of `c5Collector`. -/
def c5Paginator : Paginator PaginatorObject :=
  c5Collector.paginator.getD { object_list := [], per_page := 0 }

/-- A record with no reverse relationships at all. -/
def c6wInst : Instance :=
  { model_name := "post", related_objects := [] }

/-- A record with one CASCADE relationship with two dependents. -/
def c8wInst : Instance :=
  { model_name := "post"
    related_objects :=
      [{ on_delete := OnDelete.cascade
         accessor_name := "comment_set"
         related_model := { model_name := "comment" }
         one_to_many := true
         one_to_one := false
         has_accessor := true
         query := [{ model := "comment", id := 1 }, { model := "comment", id := 2 }] }] }

/-- The collector built from `c8wInst` (first construction). -/
def c8wCollector : Collector :=
  ((collectorNew [] (InitArg.inst c8wInst)).1.toOption).getD default

/-- The collector built from `c8wInst` against the class state left by
the first construction. -/
def c8wCollector2 : Collector :=
  ((collectorNew (collectorNew [] (InitArg.inst c8wInst)).2 (InitArg.inst c8wInst)).1.toOption).getD
    default

/-- A record with one CASCADE relationship with one dependent. -/
def c9wInst : Instance :=
  { model_name := "post"
    related_objects :=
      [{ on_delete := OnDelete.cascade
         accessor_name := "comment_set"
         related_model := { model_name := "comment" }
         one_to_many := true
         one_to_one := false
         has_accessor := true
         query := [{ model := "comment", id := 1 }] }] }

/-- The collector built from `c9wInst`. -/
def c9wCollector : Collector :=
  ((collectorNew [] (InitArg.inst c9wInst)).1.toOption).getD default

/-- A record whose only relationship is a PROTECT one (blocked scan). -/
def c10wInst : Instance :=
  { model_name := "post"
    related_objects :=
      [{ on_delete := OnDelete.protect
         accessor_name := "comment_set"
         related_model := { model_name := "comment" }
         one_to_many := true
         one_to_one := false
         has_accessor := true
         query := [{ model := "comment", id := 5 }] }] }

/-- The collector built from `c10wInst`. -/
def c10wCollector : Collector :=
  ((collectorNew [] (InitArg.inst c10wInst)).1.toOption).getD default

/-! ### Sanity checks on concrete inputs -/

example : collectLoop c6wInst.related_objects [] = ScanResult.done [] := rfl

example :
    collectLoop c2wInst.related_objects [] =
      ScanResult.blockedProtect { model_name := "like" } := by decide

example : collectLoop c4Inst.related_objects [] = ScanResult.keyError := by decide

example : title "book" = "Book" := by decide

/-! ### Helper lemmas about the scan -/

theorem collectLoop_append (rs₁ rs₂ : List Relation) (g : Grouped) :
    collectLoop (rs₁ ++ rs₂) g =
      match collectLoop rs₁ g with
      | ScanResult.done g2 => collectLoop rs₂ g2
      | r => r := by
  induction rs₁ generalizing g with
  | nil => rfl
  | cons a tl ih =>
    simp only [List.cons_append, collectLoop]
    cases collectStep a g <;> simp [ih]

theorem collectStep_protect (relation : Relation) (g : Grouped)
    (h : relation.on_delete = OnDelete.protect) :
    collectStep relation g = StepResult.blockedProtect relation.related_model := by
  simp [collectStep, _get_on_delete_action, h]

theorem collectStep_doNothing_blocked (relation : Relation) (g : Grouped)
    (h1 : relation.on_delete = OnDelete.doNothing)
    (h2 : relation.one_to_many = true ∨ relation.one_to_one = true)
    (h3 : relation.has_accessor = true)
    (h4 : relation.query ≠ []) :
    collectStep relation g = StepResult.blockedDoNothing relation.related_model := by
  rcases h2 with h2 | h2 <;>
    simp [collectStep, _get_on_delete_action, h1, h2, h3, h4, List.length_eq_zero]

theorem collectStep_doNothing_empty (relation : Relation) (g : Grouped)
    (h1 : relation.on_delete = OnDelete.doNothing)
    (h4 : relation.query = []) :
    collectStep relation g = StepResult.cont g := by
  cases ho : relation.one_to_many <;> cases hoo : relation.one_to_one <;>
    cases ha : relation.has_accessor <;>
    simp [collectStep, _get_on_delete_action, h1, h4, ho, hoo, ha]

theorem action_protect_iff (relation : Relation) :
    _get_on_delete_action relation = "protect" ↔ relation.on_delete = OnDelete.protect := by
  cases h : relation.on_delete <;> simp [_get_on_delete_action, h]

theorem action_doNothing_iff (relation : Relation) :
    _get_on_delete_action relation = "do_nothing" ↔ relation.on_delete = OnDelete.doNothing := by
  cases h : relation.on_delete <;> simp [_get_on_delete_action, h]

theorem collectStep_other (relation : Relation) (g : Grouped)
    (h : relation.on_delete = OnDelete.other) :
    collectStep relation g = StepResult.cont g := by
  cases hc : relation.one_to_many <;> cases hco : relation.one_to_one <;>
    simp [collectStep, _get_on_delete_action, h, hc, hco]

theorem collectStep_no_accessor (relation : Relation) (g : Grouped)
    (hp : relation.on_delete ≠ OnDelete.protect)
    (hacc : relation.has_accessor = false) :
    collectStep relation g = StepResult.cont g := by
  cases h : relation.on_delete <;> [skip; skip; skip; exact absurd h hp; skip] <;>
    cases hc : relation.one_to_many <;> cases hco : relation.one_to_one <;>
    simp [collectStep, _get_on_delete_action, h, hacc, hc, hco]

theorem collectStep_no_card (relation : Relation) (g : Grouped)
    (hp : relation.on_delete ≠ OnDelete.protect)
    (hc : relation.one_to_many = false) (hco : relation.one_to_one = false) :
    collectStep relation g = StepResult.cont g := by
  cases h : relation.on_delete <;> [skip; skip; skip; exact absurd h hp; skip] <;>
    simp [collectStep, _get_on_delete_action, h, hc, hco]

theorem collectStep_cascade_setNull_not_blocked (relation : Relation) (g : Grouped)
    (h : relation.on_delete = OnDelete.cascade ∨ relation.on_delete = OnDelete.setNull) :
    (collectStep relation g).isBlocked = false := by
  rcases h with h | h <;>
    cases hc : relation.one_to_many <;> cases hco : relation.one_to_one <;>
    cases hacc : relation.has_accessor <;>
    simp [collectStep, _get_on_delete_action, h, hc, hco, hacc] <;>
    (repeat' split) <;>
    simp [StepResult.isBlocked]

theorem collectStep_isBlocked (relation : Relation) (g : Grouped) :
    (collectStep relation g).isBlocked = relBlocks relation := by
  cases hod : relation.on_delete
  case cascade =>
    rw [collectStep_cascade_setNull_not_blocked relation g (Or.inl hod)]
    simp [relBlocks, _get_on_delete_action, hod]
  case setNull =>
    rw [collectStep_cascade_setNull_not_blocked relation g (Or.inr hod)]
    simp [relBlocks, _get_on_delete_action, hod]
  case protect =>
    rw [collectStep_protect relation g hod]
    simp [relBlocks, StepResult.isBlocked, _get_on_delete_action, hod]
  case other =>
    rw [collectStep_other relation g hod]
    simp [relBlocks, StepResult.isBlocked, _get_on_delete_action, hod]
  case doNothing =>
    by_cases hacc : relation.has_accessor = true
    · cases hcard : (relation.one_to_many || relation.one_to_one)
      · have hcard2 := hcard
        simp only [Bool.or_eq_false_iff] at hcard2
        rw [collectStep_no_card relation g (by rw [hod]; simp) hcard2.1 hcard2.2]
        simp [relBlocks, StepResult.isBlocked, _get_on_delete_action, hod, hcard2.1, hcard2.2]
      · cases hq : relation.query with
        | nil =>
          rw [collectStep_doNothing_empty relation g hod hq]
          simp [relBlocks, StepResult.isBlocked, _get_on_delete_action, hod, hq]
        | cons a l =>
          rw [collectStep_doNothing_blocked relation g hod (by simpa using hcard) hacc
            (by rw [hq]; simp)]
          simp [relBlocks, StepResult.isBlocked, _get_on_delete_action, hod, hacc, hq, hcard]
    · have hacc2 : relation.has_accessor = false := by
        cases hh : relation.has_accessor
        · rfl
        · exact absurd hh hacc
      rw [collectStep_no_accessor relation g (by rw [hod]; simp) hacc2]
      simp [relBlocks, StepResult.isBlocked, _get_on_delete_action, hod, hacc2]

theorem collectLoop_done_no_block (rs : List Relation) (g g2 : Grouped)
    (h : collectLoop rs g = ScanResult.done g2) :
    rs.any relBlocks = false := by
  induction rs generalizing g with
  | nil => simp
  | cons a tl ih =>
    simp only [collectLoop] at h
    cases hs : collectStep a g <;> rw [hs] at h
    case cont g3 =>
      have ha : relBlocks a = false := by
        rw [← collectStep_isBlocked a g, hs]; rfl
      simp [List.any_cons, ha, ih g3 h]
    case blockedProtect m => exact absurd h (by simp)
    case blockedDoNothing m => exact absurd h (by simp)
    case keyError => exact absurd h (by simp)

theorem collectLoop_blocked_any (rs : List Relation) (g : Grouped)
    (h : (collectLoop rs g).isBlocked = true) :
    rs.any relBlocks = true := by
  induction rs generalizing g with
  | nil => simp [collectLoop, ScanResult.isBlocked] at h
  | cons a tl ih =>
    simp only [collectLoop] at h
    cases hs : collectStep a g <;> rw [hs] at h
    case cont g3 => simp [List.any_cons, ih g3 h]
    case blockedProtect m =>
      have ha : relBlocks a = true := by
        rw [← collectStep_isBlocked a g, hs]; rfl
      simp [List.any_cons, ha]
    case blockedDoNothing m =>
      have ha : relBlocks a = true := by
        rw [← collectStep_isBlocked a g, hs]; rfl
      simp [List.any_cons, ha]
    case keyError => simp [ScanResult.isBlocked] at h

theorem collectLoop_any_blocked (rs : List Relation) (g : Grouped)
    (h : rs.any relBlocks = true) :
    (collectLoop rs g).isBlocked = true ∨ collectLoop rs g = ScanResult.keyError := by
  induction rs generalizing g with
  | nil => simp at h
  | cons a tl ih =>
    rcases (by simpa [List.any_cons] using h : relBlocks a = true ∨ tl.any relBlocks = true) with
      ha | htl
    · have hb : (collectStep a g).isBlocked = true := by
        rw [collectStep_isBlocked]; exact ha
      cases hs : collectStep a g <;> rw [hs] at hb <;>
        simp [StepResult.isBlocked] at hb <;>
        simp [collectLoop, hs, ScanResult.isBlocked]
    · cases hs : collectStep a g <;>
        simp only [collectLoop, hs] <;>
        first
        | exact ih _ htl
        | simp [ScanResult.isBlocked]

theorem collectLoop_stop (rs₁ : List Relation) (rel : Relation) (rs₂ : List Relation)
    (g : Grouped)
    (hreach : collectLoop rs₁ [] = ScanResult.done g)
    (hblk : relBlocks rel = true) :
    collectLoop (rs₁ ++ rel :: rs₂) [] = collectLoop (rs₁ ++ [rel]) [] := by
  have h1 := collectLoop_append rs₁ (rel :: rs₂) []
  have h2 := collectLoop_append rs₁ [rel] []
  rw [hreach] at h1 h2
  simp only [] at h1 h2
  rw [h1, h2]
  have hb : (collectStep rel g).isBlocked = true := by
    rw [collectStep_isBlocked]; exact hblk
  cases hs : collectStep rel g <;> rw [hs] at hb <;>
    simp [StepResult.isBlocked] at hb <;>
    simp [collectLoop, hs]

theorem collectorNew_ok_cases (classStore : Grouped) (i : Instance) (c : Collector)
    (h : (collectorNew classStore (InitArg.inst i)).1 = Except.ok c) :
    (∃ objects, collectLoop i.related_objects [] = ScanResult.done objects ∧
      c = { inst := i, is_empty := objects.isEmpty, can_be_deleted := true, reason := "",
            data := objects,
            paginator := some { object_list := objects.map (fun kv => { data := kv })
                                per_page := Collector.per_page } }) ∨
    (∃ m, collectLoop i.related_objects [] = ScanResult.blockedProtect m ∧
      c = { inst := i, is_empty := true, can_be_deleted := false,
            reason := _handle_protect_reason i.model_name m, data := classStore,
            paginator := none }) ∨
    (∃ m, collectLoop i.related_objects [] = ScanResult.blockedDoNothing m ∧
      c = { inst := i, is_empty := true, can_be_deleted := false,
            reason := _handle_do_nothing_reason i.model_name m, data := classStore,
            paginator := none }) := by
  simp only [collectorNew] at h
  cases hL : collectLoop i.related_objects [] <;> rw [hL] at h <;>
    simp only [Except.ok.injEq] at h
  case done objects => exact Or.inl ⟨objects, rfl, h.symm⟩
  case blockedProtect m => exact Or.inr (Or.inl ⟨m, rfl, h.symm⟩)
  case blockedDoNothing m => exact Or.inr (Or.inr ⟨m, rfl, h.symm⟩)
  case keyError => exact absurd h (by simp)

theorem lookupA_append {α β : Type} [DecidableEq α] (l₁ l₂ : List (α × β)) (a : α) :
    lookupA (l₁ ++ l₂) a =
      match lookupA l₁ a with
      | some v => some v
      | none => lookupA l₂ a := by
  induction l₁ with
  | nil => rfl
  | cons kv tl ih =>
    obtain ⟨k, v⟩ := kv
    by_cases hk : k = a <;> simp [lookupA, hk, ih]

theorem extendAt_lookup (group : PolicyGroup) (p : String) (q : List Rec)
    (group2 : PolicyGroup) (h : extendAt group p q = some group2) :
    ∀ p' l', lookupA group2 p' = some l' →
      ∃ l0, lookupA group p' = some l0 ∧ (l' = l0 ∨ l' = l0 ++ q) := by
  induction group generalizing group2 with
  | nil => simp [extendAt] at h
  | cons kv tl ih =>
    obtain ⟨p0, l⟩ := kv
    by_cases hp : p0 = p
    · rw [extendAt, if_pos hp] at h
      obtain rfl : (p0, l ++ q) :: tl = group2 := by simpa using h
      intro p' l' hl
      by_cases hp' : p0 = p'
      · refine ⟨l, ?_, Or.inr ?_⟩
        · simp [lookupA, hp']
        · simpa [lookupA, hp'] using hl.symm
      · refine ⟨l', ?_, Or.inl rfl⟩
        simp only [lookupA, if_neg hp'] at hl ⊢
        exact hl
    · rw [extendAt, if_neg hp] at h
      cases he : extendAt tl p q with
      | none => rw [he] at h; simp at h
      | some tl2 =>
        rw [he] at h
        obtain rfl : (p0, l) :: tl2 = group2 := by simpa using h
        intro p' l' hl
        by_cases hp' : p0 = p'
        · refine ⟨l, ?_, Or.inl ?_⟩
          · simp [lookupA, hp']
          · simpa [lookupA, hp'] using hl.symm
        · simp only [lookupA, if_neg hp'] at hl ⊢
          exact ih tl2 he p' l' hl

theorem lookupA_setAt (g : Grouped) (m : RelatedModel) (v : PolicyGroup) (m' : RelatedModel) :
    lookupA (setAt g m v) m' =
      if m' = m then Option.map (fun _ => v) (lookupA g m) else lookupA g m' := by
  induction g with
  | nil => by_cases hm : m' = m <;> simp [setAt, lookupA, hm]
  | cons kv tl ih =>
    obtain ⟨k, w⟩ := kv
    by_cases hk : k = m
    · subst hk
      by_cases hm : m' = k
      · subst hm
        simp [setAt, lookupA]
      · have hm2 : ¬k = m' := fun hh => hm hh.symm
        simp [setAt, lookupA, hm, hm2, ih]
    · by_cases hm : m' = m
      · subst hm
        have hk2 : ¬k = m' := fun hh => hk hh
        simp [setAt, lookupA, if_neg hk, if_neg hk2, ih]
      · by_cases hkm : k = m' <;> simp [setAt, lookupA, if_neg hk, hkm, ih, hm]

theorem invGrouped_nil : InvGrouped [] := by
  intro m grp h
  simp [lookupA] at h

theorem collectStep_cascade_setNull_eval (relation : Relation) (g : Grouped)
    (h : relation.on_delete = OnDelete.cascade ∨ relation.on_delete = OnDelete.setNull)
    (hcard : (relation.one_to_many || relation.one_to_one) = true)
    (hacc : relation.has_accessor = true) :
    collectStep relation g =
      if relation.query ≠ [] then
        match lookupA g relation.related_model with
        | none =>
          StepResult.cont
            (g ++ [(relation.related_model, [(_get_on_delete_action relation, relation.query)])])
        | some group =>
          match extendAt group (_get_on_delete_action relation) relation.query with
          | some group2 => StepResult.cont (setAt g relation.related_model group2)
          | none => StepResult.keyError
      else StepResult.cont g := by
  rcases h with h | h <;>
    rcases (by simpa using hcard : relation.one_to_many = true ∨ relation.one_to_one = true) with
      hc | hc <;>
    simp [collectStep, _get_on_delete_action, h, hc, hacc]

theorem collectStep_cont_shape_aux (relation : Relation) (g g' : Grouped)
    (hcs : relation.on_delete = OnDelete.cascade ∨ relation.on_delete = OnDelete.setNull)
    (hcard : (relation.one_to_many || relation.one_to_one) = true)
    (hacc : relation.has_accessor = true)
    (h : collectStep relation g = StepResult.cont g') :
    g' = g ∨
    (relation.query ≠ [] ∧ lookupA g relation.related_model = none ∧
      g' = g ++ [(relation.related_model, [(_get_on_delete_action relation, relation.query)])]) ∨
    (∃ grp grp2, relation.query ≠ [] ∧ lookupA g relation.related_model = some grp ∧
      extendAt grp (_get_on_delete_action relation) relation.query = some grp2 ∧
      g' = setAt g relation.related_model grp2) := by
  rw [collectStep_cascade_setNull_eval relation g hcs hcard hacc] at h
  by_cases hq : relation.query = []
  · rw [if_neg (by simpa using hq)] at h
    exact Or.inl (by simpa using h.symm)
  · rw [if_pos hq] at h
    cases hlk : lookupA g relation.related_model with
    | none =>
      rw [hlk] at h
      simp only [] at h
      exact Or.inr (Or.inl ⟨hq, rfl, by simpa using h.symm⟩)
    | some grp =>
      rw [hlk] at h
      simp only [] at h
      cases he : extendAt grp (_get_on_delete_action relation) relation.query with
      | none => rw [he] at h; exact absurd h (by simp)
      | some grp2 =>
        rw [he] at h
        simp only [] at h
        exact Or.inr (Or.inr ⟨grp, grp2, hq, rfl, he, by simpa using h.symm⟩)

theorem collectStep_cont_shape (relation : Relation) (g g' : Grouped)
    (h : collectStep relation g = StepResult.cont g') :
    g' = g ∨
    (relation.query ≠ [] ∧ lookupA g relation.related_model = none ∧
      g' = g ++ [(relation.related_model, [(_get_on_delete_action relation, relation.query)])]) ∨
    (∃ grp grp2, relation.query ≠ [] ∧ lookupA g relation.related_model = some grp ∧
      extendAt grp (_get_on_delete_action relation) relation.query = some grp2 ∧
      g' = setAt g relation.related_model grp2) := by
  cases hod : relation.on_delete
  case protect =>
    rw [collectStep_protect relation g hod] at h
    exact absurd h (by simp)
  case other =>
    rw [collectStep_other relation g hod] at h
    exact Or.inl (by simpa using h.symm)
  case doNothing =>
    by_cases hacc : relation.has_accessor = true
    · cases hcard : (relation.one_to_many || relation.one_to_one)
      · have hcard2 := hcard
        simp only [Bool.or_eq_false_iff] at hcard2
        rw [collectStep_no_card relation g (by rw [hod]; simp) hcard2.1 hcard2.2] at h
        exact Or.inl (by simpa using h.symm)
      · cases hq : relation.query with
        | nil =>
          rw [collectStep_doNothing_empty relation g hod hq] at h
          exact Or.inl (by simpa using h.symm)
        | cons a l =>
          rw [collectStep_doNothing_blocked relation g hod (by simpa using hcard) hacc
            (by rw [hq]; simp)] at h
          exact absurd h (by simp)
    · have hacc2 : relation.has_accessor = false := by
        cases hh : relation.has_accessor
        · rfl
        · exact absurd hh hacc
      rw [collectStep_no_accessor relation g (by rw [hod]; simp) hacc2] at h
      exact Or.inl (by simpa using h.symm)
  case cascade =>
    by_cases hacc : relation.has_accessor = true
    · cases hcard : (relation.one_to_many || relation.one_to_one)
      · have hcard2 := hcard
        simp only [Bool.or_eq_false_iff] at hcard2
        rw [collectStep_no_card relation g (by rw [hod]; simp) hcard2.1 hcard2.2] at h
        exact Or.inl (by simpa using h.symm)
      · exact collectStep_cont_shape_aux relation g g' (Or.inl hod) hcard hacc h
    · have hacc2 : relation.has_accessor = false := by
        cases hh : relation.has_accessor
        · rfl
        · exact absurd hh hacc
      rw [collectStep_no_accessor relation g (by rw [hod]; simp) hacc2] at h
      exact Or.inl (by simpa using h.symm)
  case setNull =>
    by_cases hacc : relation.has_accessor = true
    · cases hcard : (relation.one_to_many || relation.one_to_one)
      · have hcard2 := hcard
        simp only [Bool.or_eq_false_iff] at hcard2
        rw [collectStep_no_card relation g (by rw [hod]; simp) hcard2.1 hcard2.2] at h
        exact Or.inl (by simpa using h.symm)
      · exact collectStep_cont_shape_aux relation g g' (Or.inr hod) hcard hacc h
    · have hacc2 : relation.has_accessor = false := by
        cases hh : relation.has_accessor
        · rfl
        · exact absurd hh hacc
      rw [collectStep_no_accessor relation g (by rw [hod]; simp) hacc2] at h
      exact Or.inl (by simpa using h.symm)

theorem collectStep_cont_inv (relation : Relation) (g g' : Grouped)
    (h : collectStep relation g = StepResult.cont g')
    (hg : InvGrouped g) : InvGrouped g' := by
  rcases collectStep_cont_shape relation g g' h with rfl | ⟨hq, hlk, rfl⟩ | ⟨grp, grp2, hq, hlk, he, rfl⟩
  · exact hg
  · intro m grpm hm p l hl
    rw [lookupA_append] at hm
    cases hg0 : lookupA g m with
    | some w =>
      rw [hg0] at hm
      obtain rfl : w = grpm := by simpa using hm
      exact hg m _ hg0 p l hl
    | none =>
      rw [hg0] at hm
      by_cases hmm : relation.related_model = m
      · simp only [lookupA, if_pos hmm] at hm
        obtain rfl : [(_get_on_delete_action relation, relation.query)] = grpm := by simpa using hm
        by_cases hpp : _get_on_delete_action relation = p
        · simp only [lookupA, if_pos hpp] at hl
          obtain rfl : relation.query = l := by simpa using hl
          exact hq
        · simp [lookupA, if_neg hpp] at hl
      · simp [lookupA, if_neg hmm] at hm
  · intro m grpm hm p l hl
    rw [lookupA_setAt] at hm
    by_cases hmm : m = relation.related_model
    · rw [if_pos hmm] at hm
      rw [hlk] at hm
      obtain rfl : grp2 = grpm := by simpa using hm
      obtain ⟨l0, hl0, hcase⟩ := extendAt_lookup grp _ _ _ he p l hl
      have hne : l0 ≠ [] := hg relation.related_model grp hlk p l0 hl0
      rcases hcase with rfl | rfl
      · exact hne
      · simp [hne]
    · rw [if_neg hmm] at hm
      exact hg m grpm hm p l hl

theorem collectLoop_done_inv (rs : List Relation) (g g2 : Grouped)
    (h : collectLoop rs g = ScanResult.done g2) (hg : InvGrouped g) : InvGrouped g2 := by
  induction rs generalizing g with
  | nil =>
    obtain rfl : g = g2 := by simpa [collectLoop] using h
    exact hg
  | cons a tl ih =>
    simp only [collectLoop] at h
    cases hs : collectStep a g <;> rw [hs] at h
    case cont g3 => exact ih g3 h (collectStep_cont_inv a g g3 hs hg)
    case blockedProtect m => exact absurd h (by simp)
    case blockedDoNothing m => exact absurd h (by simp)
    case keyError => exact absurd h (by simp)

/-! ### Claim theorems -/

/-- C1 counterexample: the claim's "iff" fails as stated.  `c1Inst` has a
DO_NOTHING relationship with an existing dependent (its `query` is
non-empty), yet construction succeeds with `can_be_deleted = true`,
because the reverse accessor is absent and the code skips the
relationship at the `hasattr` guard before ever fetching the
dependents. -/
theorem c1_counterexample :
    c1Inst.related_objects = [c1Rel] ∧
    c1Rel.on_delete = OnDelete.doNothing ∧
    c1Rel.query ≠ [] ∧
    Except.map Collector.can_be_deleted (collectorNew [] (InitArg.inst c1Inst)).1 =
      Except.ok true := by
  refine ⟨rfl, rfl, by decide, rfl⟩

/-- C1 (amended): after a successful construction, `can_be_deleted` is
false iff the relationship list contains a blocking relationship — a
PROTECT one, or a one-to-many / one-to-one DO_NOTHING one whose accessor
is present on the instance and whose fetched list is non-empty — and
whenever the scan reaches such a relationship, processing stops there:
the relationships after it are never examined. -/
theorem c1_deletable_iff_blocking (i : Instance) (c : Collector)
    (h : (collectorNew [] (InitArg.inst i)).1 = Except.ok c) :
    (c.can_be_deleted = false ↔ i.related_objects.any relBlocks = true) ∧
    (∀ rs₁ rel rs₂ g, i.related_objects = rs₁ ++ rel :: rs₂ →
      collectLoop rs₁ [] = ScanResult.done g → relBlocks rel = true →
      collectLoop i.related_objects [] = collectLoop (rs₁ ++ [rel]) []) := by
  constructor
  · rcases collectorNew_ok_cases [] i c h with ⟨objects, hL, hc⟩ | ⟨m, hL, hc⟩ | ⟨m, hL, hc⟩
    · subst hc
      have hnone := collectLoop_done_no_block i.related_objects [] objects hL
      simp [hnone]
    · subst hc
      have hany := collectLoop_blocked_any i.related_objects []
        (by rw [hL]; rfl)
      simp [hany]
    · subst hc
      have hany := collectLoop_blocked_any i.related_objects []
        (by rw [hL]; rfl)
      simp [hany]
  · intro rs₁ rel rs₂ g hrs hreach hblk
    rw [hrs]
    exact collectLoop_stop rs₁ rel rs₂ g hreach hblk

/-- Witness for C1 (amended) at a concrete PROTECT input. -/
theorem c1_deletable_iff_blocking_witness :
    (collectorNew [] (InitArg.inst c1wInst)).1 = Except.ok c1wCollector ∧
    (c1wCollector.can_be_deleted = false ↔ c1wInst.related_objects.any relBlocks = true) :=
  ⟨rfl, (c1_deletable_iff_blocking c1wInst c1wCollector rfl).1⟩

/-- C2: when the scan reaches a PROTECT relationship (the part of the
list before it completes without blocking), construction succeeds with
`can_be_deleted = false`, the reason mentions the related model's name,
the instance model's name and the word PROTECT, the grouped result is
empty (nothing collected so far is kept, and the relationships after the
PROTECT one contribute nothing), and the scan stops at the PROTECT
relationship: the suffix after it is never examined. -/
theorem c2_protect_blocks (i : Instance) (rs₁ : List Relation) (rel : Relation)
    (rs₂ : List Relation) (g : Grouped)
    (hrs : i.related_objects = rs₁ ++ rel :: rs₂)
    (hprot : rel.on_delete = OnDelete.protect)
    (hreach : collectLoop rs₁ [] = ScanResult.done g) :
    ∃ c, (collectorNew [] (InitArg.inst i)).1 = Except.ok c ∧
      c.can_be_deleted = false ∧
      List.IsInfix rel.related_model.model_name.data c.reason.data ∧
      List.IsInfix i.model_name.data c.reason.data ∧
      List.IsInfix "PROTECT".data c.reason.data ∧
      c.data = [] ∧
      collectLoop i.related_objects [] = collectLoop (rs₁ ++ [rel]) [] := by
  have hstep : collectStep rel g = StepResult.blockedProtect rel.related_model :=
    collectStep_protect rel g hprot
  have hfull : collectLoop i.related_objects [] =
      ScanResult.blockedProtect rel.related_model := by
    rw [hrs]
    have h1 := collectLoop_append rs₁ (rel :: rs₂) []
    rw [hreach] at h1
    simp only [] at h1
    rw [h1]
    simp [collectLoop, hstep]
  have hblk : relBlocks rel = true := by
    have hact := (action_protect_iff rel).mpr hprot
    simp [relBlocks, hact]
  have hstop : collectLoop i.related_objects [] = collectLoop (rs₁ ++ [rel]) [] := by
    rw [hrs]
    exact collectLoop_stop rs₁ rel rs₂ g hreach hblk
  refine ⟨{ inst := i, is_empty := true, can_be_deleted := false,
            reason := _handle_protect_reason i.model_name rel.related_model,
            data := [], paginator := none }, ?_, rfl, ?_, ?_, ?_, rfl, hstop⟩
  · simp only [collectorNew]
    rw [hfull]
  · refine ⟨"The related model <strong>".data,
      ("</strong> " ++ "has a relationship with the model <strong>" ++ i.model_name ++
        "</strong>, " ++ "and this relationship is set to <strong>PROTECT</strong>, " ++
        "which prevents the deletion of this instance.").data, ?_⟩
    simp [_handle_protect_reason, String.data_append]
  · refine ⟨("The related model <strong>" ++ rel.related_model.model_name ++ "</strong> " ++
      "has a relationship with the model <strong>").data,
      ("</strong>, " ++ "and this relationship is set to <strong>PROTECT</strong>, " ++
        "which prevents the deletion of this instance.").data, ?_⟩
    simp [_handle_protect_reason, String.data_append]
  · refine ⟨("The related model <strong>" ++ rel.related_model.model_name ++ "</strong> " ++
      "has a relationship with the model <strong>" ++ i.model_name ++ "</strong>, " ++
      "and this relationship is set to <strong>").data,
      ("</strong>, " ++ "which prevents the deletion of this instance.").data, ?_⟩
    simp [_handle_protect_reason, String.data_append]

/-- Witness for C2 at a concrete input: CASCADE with a dependent, then
PROTECT, then another CASCADE which is never reached. -/
theorem c2_protect_blocks_witness :
    ∃ c, (collectorNew [] (InitArg.inst c2wInst)).1 = Except.ok c ∧
      c.can_be_deleted = false ∧
      List.IsInfix c2wRelP.related_model.model_name.data c.reason.data ∧
      List.IsInfix c2wInst.model_name.data c.reason.data ∧
      List.IsInfix "PROTECT".data c.reason.data ∧
      c.data = [] ∧
      collectLoop c2wInst.related_objects [] = collectLoop ([c2wRelA] ++ [c2wRelP]) [] :=
  c2_protect_blocks c2wInst [c2wRelA] c2wRelP [c2wRelC]
    [({ model_name := "comment" }, [("delete", [{ model := "comment", id := 1 }])])]
    rfl rfl rfl

/-- C3: when the scan reaches a one-to-many / one-to-one DO_NOTHING
relationship whose accessor is present: if the fetched list is
non-empty, construction yields `can_be_deleted = false` with the
DO_NOTHING blocking reason and the scan stops at that relationship; if
the fetched list is empty, the relationship contributes nothing (the
scan of the whole list equals the scan with that relationship removed). -/
theorem c3_do_nothing (i : Instance) (rs₁ : List Relation) (rel : Relation)
    (rs₂ : List Relation) (g : Grouped)
    (hrs : i.related_objects = rs₁ ++ rel :: rs₂)
    (hdn : rel.on_delete = OnDelete.doNothing)
    (hcard : rel.one_to_many = true ∨ rel.one_to_one = true)
    (hacc : rel.has_accessor = true)
    (hreach : collectLoop rs₁ [] = ScanResult.done g) :
    (rel.query ≠ [] →
      ∃ c, (collectorNew [] (InitArg.inst i)).1 = Except.ok c ∧
        c.can_be_deleted = false ∧
        c.reason = _handle_do_nothing_reason i.model_name rel.related_model ∧
        c.data = [] ∧
        collectLoop i.related_objects [] = collectLoop (rs₁ ++ [rel]) []) ∧
    (rel.query = [] →
      collectLoop i.related_objects [] = collectLoop (rs₁ ++ rs₂) []) := by
  constructor
  · intro hq
    have hstep := collectStep_doNothing_blocked rel g hdn hcard hacc hq
    have hfull : collectLoop i.related_objects [] =
        ScanResult.blockedDoNothing rel.related_model := by
      rw [hrs]
      have h1 := collectLoop_append rs₁ (rel :: rs₂) []
      rw [hreach] at h1
      simp only [] at h1
      rw [h1]
      simp [collectLoop, hstep]
    have hblk : relBlocks rel = true := by
      have hact := (action_doNothing_iff rel).mpr hdn
      rcases hcard with hc | hc <;> simp [relBlocks, hact, hc, hacc, hq]
    have hstop : collectLoop i.related_objects [] = collectLoop (rs₁ ++ [rel]) [] := by
      rw [hrs]
      exact collectLoop_stop rs₁ rel rs₂ g hreach hblk
    refine ⟨{ inst := i, is_empty := true, can_be_deleted := false,
              reason := _handle_do_nothing_reason i.model_name rel.related_model,
              data := [], paginator := none }, ?_, rfl, rfl, rfl, hstop⟩
    simp only [collectorNew]
    rw [hfull]
  · intro hq
    have hstep := collectStep_doNothing_empty rel g hdn hq
    rw [hrs]
    have h1 := collectLoop_append rs₁ (rel :: rs₂) []
    have h2 := collectLoop_append rs₁ rs₂ []
    rw [hreach] at h1 h2
    simp only [] at h1 h2
    rw [h1, h2]
    simp [collectLoop, hstep]

/-- Witness for C3 at a concrete DO_NOTHING input with one dependent. -/
theorem c3_do_nothing_witness :
    (c3wRel.query ≠ [] →
      ∃ c, (collectorNew [] (InitArg.inst c3wInst)).1 = Except.ok c ∧
        c.can_be_deleted = false ∧
        c.reason = _handle_do_nothing_reason c3wInst.model_name c3wRel.related_model ∧
        c.data = [] ∧
        collectLoop c3wInst.related_objects [] = collectLoop ([] ++ [c3wRel]) []) ∧
    (c3wRel.query = [] →
      collectLoop c3wInst.related_objects [] = collectLoop ([] ++ []) []) :=
  c3_do_nothing c3wInst [] c3wRel [] [] rfl rfl (Or.inl rfl) rfl rfl

/-- C4, code evaluated at the failing input: the same referencing model
appears under two relationships with different policies (CASCADE then
SET_NULL), both with dependents; instead of merging the second list under
`[comment][set_null]`, `objects[related_model][on_delete]` raises
`KeyError` and construction fails. -/
theorem c4_keyerror_on_second_policy :
    c4Inst.related_objects = [c4RelA, c4RelB] ∧
    c4RelA.related_model = c4RelB.related_model ∧
    c4RelA.on_delete = OnDelete.cascade ∧
    c4RelB.on_delete = OnDelete.setNull ∧
    c4RelA.query ≠ [] ∧
    c4RelB.query ≠ [] ∧
    (collectorNew [] (InitArg.inst c4Inst)).1 = Except.error InitError.keyError := by
  refine ⟨rfl, rfl, rfl, rfl, by decide, by decide, rfl⟩

/-- C5: on a successful construction whose grouped result has 25 entries
(25 distinct referencing types, one `PaginatorObject` page item each),
the paginator has the fixed page size 10, 25 items, 3 pages, and the
pages hold 10, 10 and 5 items. -/
theorem c5_pagination (i : Instance) (c : Collector) (p : Paginator PaginatorObject)
    (h : (collectorNew [] (InitArg.inst i)).1 = Except.ok c)
    (hp : c.paginator = some p)
    (hn : c.data.length = 25) :
    p.per_page = 10 ∧ p.object_list.length = 25 ∧ p.num_pages = 3 ∧
      (p.page_items 1).length = 10 ∧ (p.page_items 2).length = 10 ∧
      (p.page_items 3).length = 5 := by
  rcases collectorNew_ok_cases [] i c h with ⟨objects, hL, hc⟩ | ⟨m, hL, hc⟩ | ⟨m, hL, hc⟩
  · subst hc
    simp only [Option.some.injEq] at hp
    subst hp
    have hlen : objects.length = 25 := by simpa using hn
    refine ⟨rfl, by simpa using hlen, ?_, ?_, ?_, ?_⟩
    · simp [Paginator.num_pages, Paginator.count, Collector.per_page, hlen]
    · simp [Paginator.page_items, Collector.per_page, hlen]
    · simp [Paginator.page_items, Collector.per_page, hlen]
    · simp [Paginator.page_items, Collector.per_page, hlen]
  · subst hc
    exact absurd hp (by simp)
  · subst hc
    exact absurd hp (by simp)

/-- Witness for C5 at a concrete input with 25 distinct referencing
models, each with one dependent. -/
theorem c5_pagination_witness :
    c5Paginator.per_page = 10 ∧ c5Paginator.object_list.length = 25 ∧
      c5Paginator.num_pages = 3 ∧ (c5Paginator.page_items 1).length = 10 ∧
      (c5Paginator.page_items 2).length = 10 ∧ (c5Paginator.page_items 3).length = 5 :=
  c5_pagination c5Inst c5Collector c5Paginator rfl rfl (by decide)

/-- C6: a record with zero relationships yields `can_be_deleted = true`,
`is_empty = true` and an empty grouped result. -/
theorem c6_zero_relationships (i : Instance) (h : i.related_objects = []) :
    ∃ c, (collectorNew [] (InitArg.inst i)).1 = Except.ok c ∧
      c.can_be_deleted = true ∧ c.is_empty = true ∧ c.data = [] := by
  refine ⟨{ inst := i, is_empty := true, can_be_deleted := true, reason := "", data := [],
            paginator := some { object_list := [], per_page := Collector.per_page } },
    ?_, rfl, rfl, rfl⟩
  simp [collectorNew, h, collectLoop]

/-- Witness for C6 at a concrete record with no relationships. -/
theorem c6_zero_relationships_witness :
    c6wInst.related_objects = [] ∧
    ∃ c, (collectorNew [] (InitArg.inst c6wInst)).1 = Except.ok c ∧
      c.can_be_deleted = true ∧ c.is_empty = true ∧ c.data = [] :=
  ⟨rfl, c6_zero_relationships c6wInst rfl⟩

/-- C7 counterexample: constructing with a non-instance argument that has
no `_meta` attribute (e.g. an `int`) does not produce the `TypeError`:
evaluating `instance._meta.model_name` inside the error message raises an
`AttributeError`, which names nothing. -/
theorem c7_counterexample :
    (collectorNew [] InitArg.other).1 = Except.error InitError.attributeError ∧
    InitError.attributeError.isTypeError = false :=
  ⟨rfl, rfl⟩

/-- C7 (amended): constructing with a non-instance argument that exposes
record metadata — such as the record type itself — fails immediately
with a `TypeError` whose message contains the title-cased model name,
and no Collector is produced. -/
theorem c7_type_error_names_type (model_name : String) :
    ∃ msg, (collectorNew [] (InitArg.modelClass model_name)).1 =
        Except.error (InitError.typeError msg) ∧
      List.IsInfix (title model_name).data msg.data :=
  ⟨"(" ++ title model_name ++ ") must be an instance of the class, not the class itself",
    rfl,
    "(".data, ") must be an instance of the class, not the class itself".data, rfl⟩

/-- Witness for C7 (amended) at a concrete model name. -/
theorem c7_type_error_names_type_witness :
    ∃ msg, (collectorNew [] (InitArg.modelClass "book")).1 =
        Except.error (InitError.typeError msg) ∧
      List.IsInfix (title "book").data msg.data :=
  c7_type_error_names_type "book"

/-- C8: constructing a second Collector from the same record state,
against the class-attribute state left behind by the first construction,
yields the same grouped result and the same deletable flag (the class
attribute is only ever read, never reassigned). -/
theorem c8_reconstruction_deterministic (classStore : Grouped) (arg : InitArg)
    (c1 c2 : Collector)
    (h1 : (collectorNew classStore arg).1 = Except.ok c1)
    (h2 : (collectorNew (collectorNew classStore arg).2 arg).1 = Except.ok c2) :
    c1.data = c2.data ∧ c1.can_be_deleted = c2.can_be_deleted := by
  have hsnd : (collectorNew classStore arg).2 = classStore := rfl
  rw [hsnd, h1] at h2
  obtain rfl : c1 = c2 := by simpa using h2
  exact ⟨rfl, rfl⟩

/-- Witness for C8 at a concrete record constructed twice in a row. -/
theorem c8_reconstruction_deterministic_witness :
    c8wCollector.data = c8wCollector2.data ∧
    c8wCollector.can_be_deleted = c8wCollector2.can_be_deleted :=
  c8_reconstruction_deterministic [] (InitArg.inst c8wInst) c8wCollector c8wCollector2 rfl rfl

/-- C9: in the grouped result of a successful, non-blocked construction,
every `[referencing model][policy]` entry that is present holds a
non-empty list of records. -/
theorem c9_entries_nonempty (i : Instance) (c : Collector)
    (h : (collectorNew [] (InitArg.inst i)).1 = Except.ok c)
    (hd : c.can_be_deleted = true)
    (m : RelatedModel) (grp : PolicyGroup) (p : String) (l : List Rec)
    (h1 : lookupA c.data m = some grp) (h2 : lookupA grp p = some l) :
    l ≠ [] := by
  rcases collectorNew_ok_cases [] i c h with ⟨objects, hL, hc⟩ | ⟨m0, hL, hc⟩ | ⟨m0, hL, hc⟩
  · subst hc
    have hInv : InvGrouped objects :=
      collectLoop_done_inv i.related_objects [] objects hL invGrouped_nil
    exact hInv m grp (by simpa using h1) p l h2
  · subst hc
    simp at hd
  · subst hc
    simp at hd

/-- Witness for C9 at a concrete CASCADE input with one dependent. -/
theorem c9_entries_nonempty_witness :
    ([{ model := "comment", id := 1 }] : List Rec) ≠ [] :=
  c9_entries_nonempty c9wInst c9wCollector rfl rfl
    { model_name := "comment" } [("delete", [{ model := "comment", id := 1 }])]
    "delete" [{ model := "comment", id := 1 }] rfl rfl

/-- C10: a successful construction exposes a paginator exactly when the
scan did not block: a blocked Collector (`can_be_deleted = false`) never
has the paginator attribute assigned, an unblocked one always does. -/
theorem c10_paginator_iff_not_blocked (i : Instance) (c : Collector)
    (h : (collectorNew [] (InitArg.inst i)).1 = Except.ok c) :
    (c.can_be_deleted = false → c.paginator = none) ∧
    (c.can_be_deleted = true → ∃ p, c.paginator = some p) := by
  rcases collectorNew_ok_cases [] i c h with ⟨objects, hL, hc⟩ | ⟨m, hL, hc⟩ | ⟨m, hL, hc⟩
  · subst hc
    exact ⟨fun hd => by simp at hd, fun _ => ⟨_, rfl⟩⟩
  · subst hc
    exact ⟨fun _ => rfl, fun hd => by simp at hd⟩
  · subst hc
    exact ⟨fun _ => rfl, fun hd => by simp at hd⟩

/-- Witness for C10 at a concrete PROTECT-blocked record. -/
theorem c10_paginator_iff_not_blocked_witness :
    (c10wCollector.can_be_deleted = false → c10wCollector.paginator = none) ∧
    (c10wCollector.can_be_deleted = true → ∃ p, c10wCollector.paginator = some p) :=
  c10_paginator_iff_not_blocked c10wInst c10wCollector rfl

end RelatedObjectsFetcher
